import Mathlib

/-!
Shallow embedding of the global selection capture and toolbar arbitration engine
of the ai-ask repository (src/src-tauri/src/global_selection.rs and
src/src-tauri/src/selection_toolbar.rs), together with theorems checking the
natural-language specification against it.

Modelling conventions:
- Rust `Instant` and `SystemTime` values are modelled as `Nat` milliseconds;
  the current time is passed explicitly to any function that calls a clock.
- `f64` coordinates and scale factors are modelled as `ℚ` (the position
  arithmetic performed by the code is exact on the inputs of interest).
- Fallible OS interactions (clipboard, cursor query, providers) are modelled
  by passing their outcome in as an `Option`/`Except` argument.
- Locks: the code releases every lock before using the read data, so lock
  bodies become pure state-passing functions; `try_lock` failure is modelled
  by an explicit boolean environment flag on the paths that use `try_lock`.
-/

namespace AiAsk

/-- Minimum number of non-whitespace characters required for a valid selection
(constant `MIN_TEXT_LENGTH` in global_selection.rs). -/
def MIN_TEXT_LENGTH : Nat := 2

/-- Debounce window in milliseconds between two capture triggers
(constant `TRIGGER_DEBOUNCE_MS` in global_selection.rs). -/
def TRIGGER_DEBOUNCE_MS : Nat := 200

/-- Capture timeout in milliseconds (constant `CAPTURE_TIMEOUT_MS` in
global_selection.rs). -/
def CAPTURE_TIMEOUT_MS : Nat := 2000

/-- Toolbar window width in logical pixels (constant in selection_toolbar.rs). -/
def TOOLBAR_WIDTH : ℚ := 80

/-- Toolbar window height in logical pixels (constant in selection_toolbar.rs). -/
def TOOLBAR_HEIGHT : ℚ := 35

/-- Vertical offset between cursor and toolbar in logical pixels
(constant in selection_toolbar.rs). -/
def TOOLBAR_VERTICAL_OFFSET : ℚ := 10

/-- Whitespace trimming on character lists: drop leading and trailing
whitespace characters. -/
def trimList (l : List Char) : List Char :=
  ((l.dropWhile Char.isWhitespace).reverse.dropWhile Char.isWhitespace).reverse

/-- Model of Rust `str::trim`, working on the character list of the string (the
built-in `String.trim` is position based and opaque to kernel reduction). -/
def strTrim (s : String) : String :=
  ⟨trimList s.toList⟩

/-- Model of Rust `str::to_lowercase`, lowercasing character by character. -/
def strToLower (s : String) : String :=
  ⟨s.toList.map Char.toLower⟩

/-- Model of Rust `str::is_empty`. -/
def strIsEmpty (s : String) : Bool :=
  s.toList.isEmpty

/-- Model of Rust `str::ends_with` for string needles. -/
def strEndsWith (s suf : String) : Bool :=
  suf.toList.isSuffixOf s.toList

/-- Number of non-whitespace characters of a string, modelling the Rust
expression `s.chars().filter(|c| !c.is_whitespace()).count()`. -/
def nonWhitespaceCount (s : String) : Nat :=
  (s.toList.filter (fun c => !c.isWhitespace)).length

/-- Embedding of `normalize_selection` (global_selection.rs): trim the text and
require at least `MIN_TEXT_LENGTH` non-whitespace characters, otherwise `None`. -/
def normalize_selection (text : String) : Option String :=
  let trimmed := strTrim text
  if nonWhitespaceCount trimmed < MIN_TEXT_LENGTH then
    none
  else
    some trimmed

/-- Embedding of `read_clipboard_text` (global_selection.rs). The outcome of the
clipboard read is passed in as `clipboard` (`none` models a clipboard access or
read failure). The text is trimmed, rejected when empty or when it has fewer
than `MIN_TEXT_LENGTH` non-whitespace characters, and returned trimmed. -/
def read_clipboard_text (clipboard : Option String) : Option String :=
  match clipboard with
  | none => none
  | some text =>
    let trimmed := strTrim text
    if strIsEmpty trimmed then
      none
    else if nonWhitespaceCount trimmed < MIN_TEXT_LENGTH then
      none
    else
      some trimmed

/-- Boolean substring test on lists, modelling Rust `str::contains` for string
needles: `listIsInfixOf sub l` is true exactly when `sub` occurs contiguously
inside `l`. -/
def listIsInfixOf (sub l : List Char) : Bool :=
  match l with
  | [] => sub.isEmpty
  | _ :: tl => sub.isPrefixOf l || listIsInfixOf sub tl

/-- Substring containment on strings (Rust `candidate.contains(pattern)`). -/
def strContains (s sub : String) : Bool :=
  listIsInfixOf sub.toList s.toList

/-- Embedding of `ToolbarState` (selection_toolbar.rs). Wall-clock deadlines are
milliseconds since the epoch and `last_shown_at` is a monotonic-clock
millisecond value. -/
structure ToolbarState where
  last_shown_at : Option Nat
  last_text : Option String
  enabled : Bool
  temporary_disabled_until : Option Nat
  ignored_apps : List String
deriving Repr, DecidableEq

/-- Embedding of `ToolbarState::default` (selection_toolbar.rs): enabled, with
every other field empty. -/
def ToolbarState.default : ToolbarState :=
  { last_shown_at := none
    last_text := none
    enabled := true
    temporary_disabled_until := none
    ignored_apps := [] }

/-- Embedding of `ToolbarState::is_temporarily_disabled` (selection_toolbar.rs).
`SystemTime::now()` is passed in as `sys_now`; the result is the boolean answer
together with the possibly updated state: a deadline that has been reached is
cleared by the check itself (lazy expiry on read). -/
def ToolbarState.is_temporarily_disabled (s : ToolbarState) (sys_now : Nat) :
    Bool × ToolbarState :=
  match s.temporary_disabled_until with
  | some u =>
      if u ≤ sys_now then
        (false, { s with temporary_disabled_until := none })
      else
        (true, s)
  | none => (false, s)

/-- Embedding of `ToolbarState::set_ignored_apps` (selection_toolbar.rs): each
stored pattern is trimmed and lowercased, and empty results are dropped. -/
def ToolbarState.set_ignored_apps (s : ToolbarState) (apps : List String) :
    ToolbarState :=
  { s with ignored_apps :=
      ((apps.map (fun app => strToLower (strTrim app))).filter
        (fun app => !(strIsEmpty app))) }

/-- Embedding of `ToolbarState::should_ignore_app` (selection_toolbar.rs): the
identifier is trimmed and lowercased, and matches when it equals, ends with, or
contains one of the stored patterns; an empty pattern list or an empty
normalized identifier never matches. -/
def ToolbarState.should_ignore_app (s : ToolbarState) (identifier : String) :
    Bool :=
  if s.ignored_apps.isEmpty then
    false
  else
    let candidate := strToLower (strTrim identifier)
    if strIsEmpty candidate then
      false
    else
      s.ignored_apps.any (fun pat =>
        candidate == pat || strEndsWith candidate pat ||
          strContains candidate pat)

/-- Cursor position in physical screen pixels (struct `CursorPosition` in
selection_toolbar.rs, with `f64` modelled as `ℚ`). -/
structure CursorPosition where
  x : ℚ
  y : ℚ
deriving Repr, DecidableEq

/-- Position arithmetic of `show_toolbar_internal` (selection_toolbar.rs,
lines 462 to 476): scale the toolbar size and vertical offset by the display
scale factor, center the toolbar horizontally on the cursor, place it above the
cursor by the scaled height plus offset, and clamp each coordinate
independently to be at least 0. -/
def compute_toolbar_position (position : CursorPosition) (scale_factor : ℚ) :
    ℚ × ℚ :=
  let toolbar_width := TOOLBAR_WIDTH * scale_factor
  let toolbar_height := TOOLBAR_HEIGHT * scale_factor
  let offset_y := TOOLBAR_VERTICAL_OFFSET * scale_factor
  let toolbar_x := position.x - toolbar_width / 2
  let toolbar_y := position.y - toolbar_height - offset_y
  (if toolbar_x < 0 then 0 else toolbar_x,
   if toolbar_y < 0 then 0 else toolbar_y)

/-- Outcome of one run of the gated show path `show_toolbar_internal`
(selection_toolbar.rs). The `shown` payload carries the physical window
position after rounding to integer pixels, and the (trimmed) text emitted to
the toolbar window. -/
inductive ShowOutcome where
  | suppressedEmpty
  | suppressedDisabled
  | suppressedTemporarilyDisabled
  | suppressedIgnoredApp
  | suppressedThrottle
  | shown (pos : ℤ × ℤ) (text : String)
deriving Repr, DecidableEq

/-- Environment read by the show path: the foreground application identifiers
returned by `resolve_active_app_identifiers`, the display scale factor
(`window.scale_factor().unwrap_or(1.0)`), the wall clock (for the
temporary-disable check) and the monotonic clock (for the throttle check). -/
structure ShowEnv where
  active_identifiers : List String
  scale_factor : ℚ
  sys_now : Nat
  inst_now : Nat
deriving Repr

/-- Embedding of `show_toolbar_internal` (selection_toolbar.rs): trim the text
and drop empty text; then, under the state lock, check the enabled flag, the
temporary-disable deadline (with lazy expiry), the ignored-application
patterns, and the 120 ms same-text throttle; when every check passes, record
the show time and text and show the window at the computed position. The
window creation, always-on-top call, 50 ms settle delay and event emission
have no effect on `ToolbarState` and are not modelled. -/
def show_toolbar_internal (env : ShowEnv) (text : String)
    (position : CursorPosition) (state : ToolbarState) :
    ShowOutcome × ToolbarState :=
  let trimmed_text := strTrim text
  if strIsEmpty trimmed_text then
    (.suppressedEmpty, state)
  else if !state.enabled then
    (.suppressedDisabled, state)
  else
    let td := state.is_temporarily_disabled env.sys_now
    if td.1 then
      (.suppressedTemporarilyDisabled, td.2)
    else
      let state := td.2
      if env.active_identifiers.any
          (fun identifier => state.should_ignore_app identifier) then
        (.suppressedIgnoredApp, state)
      else
        let throttled :=
          match state.last_shown_at with
          | some last =>
              decide (env.inst_now - last < 120) &&
                (match state.last_text with
                 | some prev => prev == trimmed_text
                 | none => false)
          | none => false
        if throttled then
          (.suppressedThrottle, state)
        else
          let state := { state with
            last_shown_at := some env.inst_now
            last_text := some trimmed_text }
          let p := compute_toolbar_position position env.scale_factor
          (.shown (round p.1, round p.2) trimmed_text, state)

/-- Embedding of the state effect of `hide_toolbar_internal`
(selection_toolbar.rs): clear `last_text` and `last_shown_at`; the window hide
call itself does not touch `ToolbarState`. -/
def hide_toolbar_internal (state : ToolbarState) : ToolbarState :=
  { state with last_text := none, last_shown_at := none }

/-- Embedding of `show_selection_toolbar_force_with_manager`
(selection_toolbar.rs): save the current temporary-disable deadline, clear it,
run the gated show path, and restore the saved deadline afterwards only when
the deadline is still clear. Concurrent writes by another actor between the
show and the restore are modelled by `interference`: `some v` means another
actor set the deadline to `v` in the meantime, `none` means nobody wrote. -/
def show_selection_toolbar_force_with_manager (env : ShowEnv) (text : String)
    (position : CursorPosition) (interference : Option (Option Nat))
    (state : ToolbarState) : ShowOutcome × ToolbarState :=
  let original := state.temporary_disabled_until
  let state1 :=
    if original.isSome then { state with temporary_disabled_until := none }
    else state
  let r := show_toolbar_internal env text position state1
  let state2 :=
    match interference with
    | some v => { r.2 with temporary_disabled_until := v }
    | none => r.2
  let state3 :=
    match original with
    | some u =>
        if state2.temporary_disabled_until.isNone then
          { state2 with temporary_disabled_until := some u }
        else
          state2
    | none => state2
  (r.1, state3)

/-- Embedding of `platform_cursor_position` on Linux (selection_toolbar.rs):
the lookup is not implemented and always returns an error. -/
def platform_cursor_position_linux : Except String (ℚ × ℚ) :=
  Except.error "Cursor position lookup not implemented on Linux"

/-- Embedding of the `get_cursor_position` command (selection_toolbar.rs): the
outcome of the platform query is passed in as `platform_result`; a successful
query is returned as is, and any failure is replaced by the fallback position
(0, 0), still as a success. -/
def get_cursor_position (platform_result : Except String (ℚ × ℚ)) :
    Except String CursorPosition :=
  match platform_result with
  | Except.ok (x, y) => Except.ok { x := x, y := y }
  | Except.error _ => Except.ok { x := 0, y := 0 }

/-- Embedding of `capture_text_for_hotkey` (global_selection.rs): try the
provider chain first and fall back to the clipboard when it returns nothing.
`provider_text` is the outcome of `capture_with_providers` (providers
normalize their own output before returning it) and `clipboard` is the raw
clipboard read outcome. -/
def capture_text_for_hotkey (provider_text clipboard : Option String) :
    Option String :=
  match provider_text with
  | some text => some text
  | none => read_clipboard_text clipboard

/-- Environment read by the hotkey trigger path: the foreground application
identifiers, the provider-chain and clipboard outcomes, the platform cursor
query outcome, the display scale factor, both clocks, and whether the capture
task panicked or hit the 2000 ms timeout. -/
structure HotkeyEnv where
  active_identifiers : List String
  provider_text : Option String
  clipboard : Option String
  cursor : Except String (ℚ × ℚ)
  scale_factor : ℚ
  sys_now : Nat
  inst_now : Nat
  capture_failed : Bool
deriving Repr

/-- Outcome of the hotkey trigger path `trigger_toolbar_from_hotkey`
(global_selection.rs): either a hide is scheduled (with the reason), or the
forced show path runs with the given result. -/
inductive HotkeyOutcome where
  | hiddenDisabled
  | hiddenIgnoredApp
  | hiddenCaptureFailed
  | hiddenNoText
  | hiddenNoCursor
  | forced (result : ShowOutcome)
deriving Repr, DecidableEq

/-- Embedding of `trigger_toolbar_from_hotkey` (global_selection.rs). Under the
state lock it reads the enabled flag, the temporary-disable state (checked
only when enabled, with lazy expiry) and the ignored-application match
(checked only when enabled and not temporarily disabled). A disabled feature
or an ignored foreground application hides the toolbar and stops; a
temporary disable is log-only and the path proceeds. The capture task then
runs (panic and timeout hide the toolbar), the clipboard is the fallback for
an empty provider chain, the cursor position comes from a fresh platform
query (failure hides the toolbar), and finally the forced show path runs.
The model executes the spawned task sequentially with no interference. -/
def trigger_toolbar_from_hotkey (env : HotkeyEnv) (state : ToolbarState) :
    HotkeyOutcome × ToolbarState :=
  let enabled := state.enabled
  let td :=
    if enabled then state.is_temporarily_disabled env.sys_now
    else (false, state)
  let temporarily_disabled := td.1
  let state := td.2
  let ignore_active_app :=
    if enabled && !temporarily_disabled then
      env.active_identifiers.any
        (fun identifier => state.should_ignore_app identifier)
    else
      false
  if !enabled then
    (.hiddenDisabled, hide_toolbar_internal state)
  else if ignore_active_app then
    (.hiddenIgnoredApp, hide_toolbar_internal state)
  else if env.capture_failed then
    (.hiddenCaptureFailed, hide_toolbar_internal state)
  else
    match capture_text_for_hotkey env.provider_text env.clipboard with
    | none => (.hiddenNoText, hide_toolbar_internal state)
    | some text =>
      match env.cursor with
      | Except.error _ => (.hiddenNoCursor, hide_toolbar_internal state)
      | Except.ok (x, y) =>
        let r := show_selection_toolbar_force_with_manager
          { active_identifiers := env.active_identifiers
            scale_factor := env.scale_factor
            sys_now := env.sys_now
            inst_now := env.inst_now }
          text { x := x, y := y } none state
        (.forced r.1, r.2)

/-- Embedding of `MonitorState` (global_selection.rs): debounce anchor, last
delivered text, last observed mouse position, and the concurrency guard. -/
structure MonitorState where
  last_trigger_at : Option Nat
  last_text : Option String
  last_mouse_position : ℚ × ℚ
  capture_in_progress : Bool
deriving Repr, DecidableEq

/-- Embedding of `MonitorState::default` (derived `Default` in
global_selection.rs). -/
def MonitorState.default : MonitorState :=
  { last_trigger_at := none
    last_text := none
    last_mouse_position := (0, 0)
    capture_in_progress := false }

/-- Input events delivered to `handle_event` (global_selection.rs): mouse
moves, left-button releases, other mouse buttons, and (on macOS) keyboard
events that the handler discards. -/
inductive MouseEvent where
  | mouseMove (x y : ℚ)
  | buttonReleaseLeft
  | buttonOther
  | keyEvent
deriving Repr, DecidableEq

/-- Environment read by one run of `handle_event`: whether the toolbar-state
and monitor-state `try_lock` calls find the lock busy, whether the host
application main window is focused, and the monotonic clock. -/
structure HandleEnv where
  toolbar_lock_busy : Bool
  monitor_lock_busy : Bool
  main_window_focused : Bool
  now : Nat
deriving Repr

/-- Outcome of one run of `handle_event` (global_selection.rs). `dispatched`
means a capture task was spawned; every other outcome spawns no capture. -/
inductive HandleOutcome where
  | ignoredKeyEvent
  | movedUpdated
  | movedDropped
  | ignoredOtherEvent
  | toolbarLockBusy
  | hiddenDisabled
  | ignoredSelfFocus
  | monitorLockBusy
  | debounced
  | captureAlreadyRunning
  | dispatched
deriving Repr, DecidableEq

/-- Embedding of `handle_event` (global_selection.rs). Keyboard events are
ignored; mouse moves update the cursor position with `try_lock` (dropped when
busy); a left-button release checks, in order: toolbar lock availability, the
enabled flag (disabled hides the toolbar), host-window focus, monitor lock
availability, the 200 ms debounce window, and the capture-in-progress guard;
only when all pass does it record `last_trigger_at`, set
`capture_in_progress`, and dispatch a capture task. -/
def handle_event (env : HandleEnv) (event : MouseEvent)
    (toolbar : ToolbarState) (state : MonitorState) :
    HandleOutcome × MonitorState :=
  match event with
  | .keyEvent => (.ignoredKeyEvent, state)
  | .mouseMove x y =>
      if env.monitor_lock_busy then
        (.movedDropped, state)
      else
        (.movedUpdated, { state with last_mouse_position := (x, y) })
  | .buttonOther => (.ignoredOtherEvent, state)
  | .buttonReleaseLeft =>
      if env.toolbar_lock_busy then
        (.toolbarLockBusy, state)
      else if !toolbar.enabled then
        (.hiddenDisabled, state)
      else if env.main_window_focused then
        (.ignoredSelfFocus, state)
      else if env.monitor_lock_busy then
        (.monitorLockBusy, state)
      else
        let debounced :=
          match state.last_trigger_at with
          | some last => decide (env.now - last < TRIGGER_DEBOUNCE_MS)
          | none => false
        if debounced then
          (.debounced, state)
        else if state.capture_in_progress then
          (.captureAlreadyRunning, state)
        else
          (.dispatched, { state with
            last_trigger_at := some env.now
            capture_in_progress := true })

/-- Possible outcomes of the spawned capture task before its completion logic
runs (global_selection.rs): the provider chain succeeded with text, returned
nothing, panicked, or hit the 2000 ms timeout. -/
inductive CaptureResult where
  | success (text : String)
  | noText
  | panicked
  | timedOut
deriving Repr, DecidableEq

/-- Action taken by the capture task completion logic. -/
inductive CaptureAction where
  | hide
  | show (pos : ℚ × ℚ) (text : String)
  | suppressedDuplicate
deriving Repr, DecidableEq

/-- Embedding of the completion half of the capture task spawned by
`handle_event` (global_selection.rs): no text, a panic, or a timeout hide the
toolbar; captured text identical to `last_text` is suppressed; otherwise
`last_text` is updated and the toolbar is shown at the last mouse position.
In every case the `CaptureResetGuard` drop clears `capture_in_progress` when
the task ends. -/
def capture_task_complete (result : CaptureResult) (state : MonitorState) :
    CaptureAction × MonitorState :=
  let r :=
    match result with
    | .success text =>
        let is_duplicate :=
          match state.last_text with
          | some previous => previous == text
          | none => false
        if is_duplicate then
          (CaptureAction.suppressedDuplicate, state)
        else
          (CaptureAction.show state.last_mouse_position text,
           { state with last_text := some text })
    | _ => (CaptureAction.hide, state)
  (r.1, { r.2 with capture_in_progress := false })

/-- Model of a classic Win32 edit control as seen by
`extract_selection_from_edit` (global_selection.rs): the selection range
reported by `EM_GETSEL` and the full text as UTF-16 code units, as retrieved
by `WM_GETTEXTLENGTH` and `WM_GETTEXT`. -/
structure EditControl where
  sel_start : Nat
  sel_end : Nat
  text : List Nat
deriving Repr, DecidableEq

/-- Embedding of `extract_selection_from_edit` (global_selection.rs): reject a
selection with `start >= end` or an empty text buffer, clamp the slice end to
the number of copied code units and the slice start to the slice end, reject
an empty slice, and return the selected code units. The final UTF-16 decode
(`String::from_utf16`) is not modelled; the result is the sliced code units. -/
def extract_selection_from_edit (ctl : EditControl) : Option (List Nat) :=
  if ctl.sel_end ≤ ctl.sel_start then
    none
  else
    let text_length := ctl.text.length
    if text_length = 0 then
      none
    else
      let copied := text_length
      let slice_end := min ctl.sel_end copied
      let slice_start := min ctl.sel_start slice_end
      if slice_end ≤ slice_start then
        none
      else
        some ((ctl.text.drop slice_start).take (slice_end - slice_start))

/-! Helper lemmas shared by the claim theorems. -/

/-- A string with at least `MIN_TEXT_LENGTH` non-whitespace characters is not
empty. -/
theorem strIsEmpty_eq_false_of_count (s : String)
    (h : MIN_TEXT_LENGTH ≤ nonWhitespaceCount s) : strIsEmpty s = false := by
  unfold strIsEmpty
  unfold nonWhitespaceCount MIN_TEXT_LENGTH at h
  cases hl : s.toList with
  | nil => rw [hl] at h; simp at h
  | cons a l => simp

/-- Clearing an already clear temporary-disable deadline is the identity. -/
theorem clear_deadline_noop (st : ToolbarState)
    (h : st.temporary_disabled_until = none) :
    { st with temporary_disabled_until := none } = st := by
  cases st
  simp_all

/-- The gated show path never sets a temporary-disable deadline: run on a state
whose deadline is clear, it returns a state whose deadline is clear. -/
theorem show_toolbar_internal_deadline_none (env : ShowEnv) (text : String)
    (pos : CursorPosition) (st : ToolbarState)
    (h : st.temporary_disabled_until = none) :
    ((show_toolbar_internal env text pos st).2).temporary_disabled_until =
      none := by
  unfold show_toolbar_internal ToolbarState.is_temporarily_disabled
  simp only [h]
  split <;> simp_all <;> split <;> simp_all <;> split <;> simp_all <;>
    split <;> simp_all

/-! Claim theorems. -/

/-- C5: for every input string, `normalize_selection` returns some of the
whitespace-trimmed text exactly when the trimmed text has at least 2
non-whitespace characters and none otherwise; the clipboard reader applies the
same validation; in particular " a " and "  " are rejected and "ab" is
accepted. -/
theorem normalize_selection_spec :
    (∀ text : String,
        normalize_selection text =
          if MIN_TEXT_LENGTH ≤ nonWhitespaceCount (strTrim text) then
            some (strTrim text)
          else none) ∧
    (∀ text : String,
        read_clipboard_text (some text) = normalize_selection text) ∧
    read_clipboard_text none = none ∧
    normalize_selection " a " = none ∧
    normalize_selection "  " = none ∧
    normalize_selection "ab" = some "ab" := by
  refine ⟨?_, ?_, rfl, by decide, by decide, by decide⟩
  · intro text
    unfold normalize_selection
    rcases Nat.lt_or_ge (nonWhitespaceCount (strTrim text)) MIN_TEXT_LENGTH
      with h | h
    · simp [if_pos h, Nat.not_le.mpr h]
    · simp [if_neg (Nat.not_lt.mpr h), h]
  · intro text
    unfold read_clipboard_text normalize_selection
    by_cases he : strIsEmpty (strTrim text)
    · have hz : nonWhitespaceCount (strTrim text) = 0 := by
        unfold strIsEmpty at he
        unfold nonWhitespaceCount
        cases hl : (strTrim text).toList with
        | nil => simp [hl]
        | cons a l => rw [hl] at he; simp at he
      simp [he, hz, MIN_TEXT_LENGTH]
    · simp [he]

/-- C6: `should_ignore_app` is true exactly when the pattern list and the
trimmed lowercased identifier are non-empty and the identifier equals, ends
with, or contains one of the stored patterns; `set_ignored_apps` stores the
patterns trimmed, lowercased and with empty results dropped; in particular the
identifier "notepadplusplus.exe" matches the pattern "notepad". -/
theorem should_ignore_app_spec :
    (∀ (s : ToolbarState) (apps : List String),
        (s.set_ignored_apps apps).ignored_apps =
          ((apps.map (fun app => strToLower (strTrim app))).filter
            (fun app => !(strIsEmpty app)))) ∧
    (∀ (s : ToolbarState) (identifier : String),
        s.should_ignore_app identifier =
          (!s.ignored_apps.isEmpty &&
            !(strIsEmpty (strToLower (strTrim identifier))) &&
            s.ignored_apps.any (fun pat =>
              strToLower (strTrim identifier) == pat ||
                strEndsWith (strToLower (strTrim identifier)) pat ||
                strContains (strToLower (strTrim identifier)) pat))) ∧
    (∀ (s : ToolbarState) (identifier : String),
        ToolbarState.should_ignore_app { s with ignored_apps := [] }
          identifier = false) ∧
    (∀ s : ToolbarState, s.should_ignore_app "   " = false) ∧
    (ToolbarState.default.set_ignored_apps ["notepad"]).should_ignore_app
        "notepadplusplus.exe" = true := by
  refine ⟨fun s apps => rfl, ?_, ?_, ?_, by decide⟩
  · intro s identifier
    unfold ToolbarState.should_ignore_app
    by_cases h1 : s.ignored_apps.isEmpty <;>
      by_cases h2 : strIsEmpty (strToLower (strTrim identifier)) <;>
        simp [h1, h2]
  · intro s identifier
    unfold ToolbarState.should_ignore_app
    simp
  · intro s
    unfold ToolbarState.should_ignore_app
    by_cases h1 : s.ignored_apps.isEmpty <;>
      simp [h1, show strIsEmpty (strToLower (strTrim "   ")) = true by decide]

/-- C4: a state whose deadline lies strictly in the future reads as disabled
and keeps the deadline; a state whose deadline has been reached reads as not
disabled and clears the deadline on that same check; a state with no deadline
reads as not disabled. -/
theorem is_temporarily_disabled_spec :
    (∀ (s : ToolbarState) (sys_now k : Nat),
        ToolbarState.is_temporarily_disabled
            { s with temporary_disabled_until := some (sys_now + k + 1) }
            sys_now =
          (true,
            { s with temporary_disabled_until := some (sys_now + k + 1) })) ∧
    (∀ (s : ToolbarState) (d k : Nat),
        ToolbarState.is_temporarily_disabled
            { s with temporary_disabled_until := some d } (d + k) =
          (false, { s with temporary_disabled_until := none })) ∧
    (∀ (s : ToolbarState) (sys_now : Nat),
        ToolbarState.is_temporarily_disabled
            { s with temporary_disabled_until := none } sys_now =
          (false, { s with temporary_disabled_until := none })) := by
  refine ⟨?_, ?_, fun s sys_now => rfl⟩
  · intro s sys_now k
    unfold ToolbarState.is_temporarily_disabled
    simp [Nat.not_le.mpr (Nat.lt_succ_of_le (Nat.le_add_right sys_now k))]
  · intro s d k
    unfold ToolbarState.is_temporarily_disabled
    simp [Nat.le_add_right d k]

/-- C10: the `get_cursor_position` command never returns an error: a
successful platform query is returned as is, and every failure, including the
unimplemented Linux lookup, yields the fallback position (0, 0) as a success. -/
theorem get_cursor_position_never_errs :
    (∀ r : Except String (ℚ × ℚ), ∃ p, get_cursor_position r = Except.ok p) ∧
    (∀ x y : ℚ,
        get_cursor_position (Except.ok (x, y)) =
          Except.ok { x := x, y := y }) ∧
    (∀ msg : String,
        get_cursor_position (Except.error msg) =
          Except.ok { x := 0, y := 0 }) ∧
    get_cursor_position platform_cursor_position_linux =
      Except.ok { x := 0, y := 0 } := by
  refine ⟨?_, fun x y => rfl, fun msg => rfl, rfl⟩
  intro r
  cases r with
  | ok p => exact ⟨{ x := p.1, y := p.2 }, by cases p; rfl⟩
  | error e => exact ⟨{ x := 0, y := 0 }, rfl⟩

/-- C9 counterexample: with selection offsets start 0 and end 10 on an edit
control whose retrieved text has only 2 code units, the claim requires None
(end exceeds the buffer length), but the code clamps the end offset to the
buffer length and returns the whole text. -/
theorem extract_selection_from_edit_counterexample :
    ¬(10 ≤ ([(65 : Nat), 66]).length) ∧
    extract_selection_from_edit
        { sel_start := 0, sel_end := 10, text := [65, 66] } ≠ none ∧
    extract_selection_from_edit
        { sel_start := 0, sel_end := 10, text := [65, 66] } =
      some [65, 66] := by
  refine ⟨by decide, by decide, by decide⟩

/-- C9 amended: the legacy edit-control provider returns None unless the
selection start is below both the selection end and the length of the
retrieved text; otherwise it returns the code units of the slice from start to
the end offset clamped to the text length (out-of-range end offsets are
clamped, not rejected). -/
theorem extract_selection_from_edit_spec (ctl : EditControl) :
    extract_selection_from_edit ctl =
      if ctl.sel_start < ctl.sel_end ∧ ctl.sel_start < ctl.text.length then
        some ((ctl.text.drop ctl.sel_start).take
          (min ctl.sel_end ctl.text.length - ctl.sel_start))
      else
        none := by
  rcases ctl with ⟨s, e, t⟩
  unfold extract_selection_from_edit
  simp only
  by_cases h1 : e ≤ s
  · rw [if_pos h1, if_neg (by omega)]
  · rw [if_neg h1]
    by_cases h2 : t.length = 0
    · rw [if_pos h2, if_neg (by omega)]
    · rw [if_neg h2]
      by_cases h3 : e ⊓ t.length ≤ s ⊓ (e ⊓ t.length)
      · rw [if_pos h3, if_neg (by omega)]
      · rw [if_neg h3, if_pos ⟨by omega, by omega⟩]
        have hs : s ⊓ (e ⊓ t.length) = s := by omega
        rw [hs]

/-- C1: while a capture is in progress, a further button release is ignored
(never dispatched, state untouched); the completion of the capture task clears
the guard whatever the result was, clearing is idempotent, and a later button
release can dispatch a new capture once the debounce window has elapsed. -/
theorem capture_guard_spec
    (env : HandleEnv) (toolbar : ToolbarState) (st : MonitorState)
    (r : CaptureResult) :
    (st.capture_in_progress = true →
        (handle_event env .buttonReleaseLeft toolbar st).1 ≠
            HandleOutcome.dispatched ∧
          (handle_event env .buttonReleaseLeft toolbar st).2 = st) ∧
    ((capture_task_complete r st).2.capture_in_progress = false) ∧
    ((capture_task_complete r
        { st with capture_in_progress := false }).2.capture_in_progress =
      false) ∧
    (toolbar.enabled = true → env.toolbar_lock_busy = false →
      env.monitor_lock_busy = false → env.main_window_focused = false →
      (∀ last, st.last_trigger_at = some last →
          TRIGGER_DEBOUNCE_MS ≤ env.now - last) →
      (handle_event env .buttonReleaseLeft toolbar
          ((capture_task_complete r st).2)).1 = HandleOutcome.dispatched) := by
  refine ⟨?_, ?_, ?_, ?_⟩
  · intro hcap
    unfold handle_event
    refine ⟨?_, ?_⟩ <;>
      · split <;> simp_all <;> split <;> simp_all <;> split <;> simp_all <;>
          split <;> simp_all <;> split <;> simp_all <;> split <;> simp_all
  · unfold capture_task_complete
    cases r <;> simp <;> split <;> simp
  · unfold capture_task_complete
    cases r <;> simp <;> split <;> simp
  · intro he hb1 hb2 hf hdeb
    have hlt : (capture_task_complete r st).2.last_trigger_at =
        st.last_trigger_at := by
      unfold capture_task_complete
      cases r <;> simp <;> split <;> simp
    have hcp : (capture_task_complete r st).2.capture_in_progress = false := by
      unfold capture_task_complete
      cases r <;> simp <;> split <;> simp
    unfold handle_event
    rw [if_neg (by simp [hb1]), if_neg (by simp [he]),
      if_neg (by simp [hf]), if_neg (by simp [hb2])]
    rw [hlt, hcp]
    have hdb :
        (match st.last_trigger_at with
          | some last => decide (env.now - last < TRIGGER_DEBOUNCE_MS)
          | none => false) = false := by
      cases hl : st.last_trigger_at with
      | none => simp
      | some last =>
          simp only [decide_eq_false_iff_not, Nat.not_lt]
          exact hdeb last hl
    rw [hdb]
    simp

/-- C1 witness: concrete run with the guard set (second release ignored), and
with a completed capture followed by a dispatching release. -/
theorem capture_guard_spec_witness :
    ((⟨none, none, (0, 0), true⟩ : MonitorState).capture_in_progress = true ∧
      (handle_event ⟨false, false, false, 1000⟩ MouseEvent.buttonReleaseLeft
          ToolbarState.default ⟨none, none, (0, 0), true⟩).1 ≠
        HandleOutcome.dispatched) ∧
    (handle_event ⟨false, false, false, 1000⟩ MouseEvent.buttonReleaseLeft
        ToolbarState.default
        ((capture_task_complete CaptureResult.noText
          ⟨some 500, none, (0, 0), true⟩).2)).1 =
      HandleOutcome.dispatched := by
  constructor
  · exact ⟨rfl,
      ((capture_guard_spec ⟨false, false, false, 1000⟩ ToolbarState.default
        ⟨none, none, (0, 0), true⟩ CaptureResult.noText).1 rfl).1⟩
  · exact (capture_guard_spec ⟨false, false, false, 1000⟩ ToolbarState.default
      ⟨some 500, none, (0, 0), true⟩ CaptureResult.noText).2.2.2 rfl rfl rfl
      rfl (by intro last hl; cases hl; decide)

/-- C2: with the feature enabled, no lock contention, the host window not
focused and no capture in progress, a first button release whose debounce
window has elapsed dispatches a capture and records the trigger time; a second
release less than 200 ms later is debounced and changes nothing, whether or
not the first capture has completed in between. -/
theorem debounce_spec
    (env1 env2 : HandleEnv) (toolbar : ToolbarState) (st : MonitorState)
    (henabled : toolbar.enabled = true)
    (hb1 : env1.toolbar_lock_busy = false)
    (hb2 : env1.monitor_lock_busy = false)
    (hf1 : env1.main_window_focused = false)
    (hb3 : env2.toolbar_lock_busy = false)
    (hb4 : env2.monitor_lock_busy = false)
    (hf2 : env2.main_window_focused = false)
    (hcap : st.capture_in_progress = false)
    (hdeb : ∀ last, st.last_trigger_at = some last →
        TRIGGER_DEBOUNCE_MS ≤ env1.now - last)
    (hclose : env2.now - env1.now < TRIGGER_DEBOUNCE_MS) :
    handle_event env1 .buttonReleaseLeft toolbar st =
      (HandleOutcome.dispatched,
        { st with last_trigger_at := some env1.now,
                  capture_in_progress := true }) ∧
    (handle_event env2 .buttonReleaseLeft toolbar
        ((handle_event env1 .buttonReleaseLeft toolbar st).2)) =
      (HandleOutcome.debounced,
        (handle_event env1 .buttonReleaseLeft toolbar st).2) ∧
    (∀ r : CaptureResult,
        (handle_event env2 .buttonReleaseLeft toolbar
            ((capture_task_complete r
              ((handle_event env1 .buttonReleaseLeft toolbar st).2)).2)).1 =
          HandleOutcome.debounced) := by
  have h1 : handle_event env1 .buttonReleaseLeft toolbar st =
      (HandleOutcome.dispatched,
        { st with last_trigger_at := some env1.now,
                  capture_in_progress := true }) := by
    unfold handle_event
    rw [if_neg (by simp [hb1]), if_neg (by simp [henabled]),
      if_neg (by simp [hf1]), if_neg (by simp [hb2])]
    have hdb :
        (match st.last_trigger_at with
          | some last => decide (env1.now - last < TRIGGER_DEBOUNCE_MS)
          | none => false) = false := by
      cases hl : st.last_trigger_at with
      | none => simp
      | some last =>
          simp only [decide_eq_false_iff_not, Nat.not_lt]
          exact hdeb last hl
    rw [hdb]
    simp [hcap]
  refine ⟨h1, ?_, ?_⟩
  · rw [h1]
    unfold handle_event
    rw [if_neg (by simp [hb3]), if_neg (by simp [henabled]),
      if_neg (by simp [hf2]), if_neg (by simp [hb4])]
    simp [hclose]
  · intro r
    rw [h1]
    have hlt : (capture_task_complete r
        { st with last_trigger_at := some env1.now,
                  capture_in_progress := true }).2.last_trigger_at =
        some env1.now := by
      unfold capture_task_complete
      cases r <;> simp <;> split <;> simp
    unfold handle_event
    rw [if_neg (by simp [hb3]), if_neg (by simp [henabled]),
      if_neg (by simp [hf2]), if_neg (by simp [hb4])]
    rw [hlt]
    simp [hclose]

/-- C2 witness: two concrete releases 100 ms apart; the first dispatches, the
second is debounced both before and after the capture completes. -/
theorem debounce_spec_witness :
    handle_event ⟨false, false, false, 1000⟩ MouseEvent.buttonReleaseLeft
        ToolbarState.default MonitorState.default =
      (HandleOutcome.dispatched,
        { MonitorState.default with
            last_trigger_at := some 1000
            capture_in_progress := true }) ∧
    handle_event ⟨false, false, false, 1100⟩ MouseEvent.buttonReleaseLeft
        ToolbarState.default
        ((handle_event ⟨false, false, false, 1000⟩
            MouseEvent.buttonReleaseLeft ToolbarState.default
            MonitorState.default).2) =
      (HandleOutcome.debounced,
        (handle_event ⟨false, false, false, 1000⟩
            MouseEvent.buttonReleaseLeft ToolbarState.default
            MonitorState.default).2) := by
  have h := debounce_spec ⟨false, false, false, 1000⟩
    ⟨false, false, false, 1100⟩ ToolbarState.default MonitorState.default
    rfl rfl rfl rfl rfl rfl rfl rfl
    (by intro last hl; cases hl) (by decide)
  exact ⟨h.1, h.2.1⟩

/-- C7: the forced show saves and clears the temporary-disable deadline before
running the gated show path, restores the saved deadline afterwards only when
the deadline is still clear at that point, leaves a deadline written
concurrently by another actor untouched, and the clear and restore steps touch
no other field of the state. -/
theorem force_show_spec (env : ShowEnv) (text : String) (pos : CursorPosition)
    (st : ToolbarState) (u v : Nat) :
    (∀ i, (show_selection_toolbar_force_with_manager env text pos i st).1 =
        (show_toolbar_internal env text pos
          { st with temporary_disabled_until := none }).1) ∧
    (st.temporary_disabled_until = some u →
      show_selection_toolbar_force_with_manager env text pos none st =
        ((show_toolbar_internal env text pos
            { st with temporary_disabled_until := none }).1,
          { (show_toolbar_internal env text pos
              { st with temporary_disabled_until := none }).2 with
              temporary_disabled_until := some u })) ∧
    (st.temporary_disabled_until = some u →
      show_selection_toolbar_force_with_manager env text pos
          (some (some v)) st =
        ((show_toolbar_internal env text pos
            { st with temporary_disabled_until := none }).1,
          { (show_toolbar_internal env text pos
              { st with temporary_disabled_until := none }).2 with
              temporary_disabled_until := some v })) ∧
    (st.temporary_disabled_until = none →
      show_selection_toolbar_force_with_manager env text pos none st =
        show_toolbar_internal env text pos st) := by
  refine ⟨?_, ?_, ?_, ?_⟩
  · intro i
    unfold show_selection_toolbar_force_with_manager
    cases h : st.temporary_disabled_until with
    | none => simp [clear_deadline_noop st h]
    | some w => simp
  · intro h
    have hd := show_toolbar_internal_deadline_none env text pos
      { st with temporary_disabled_until := none } rfl
    unfold show_selection_toolbar_force_with_manager
    simp [h, hd]
  · intro h
    unfold show_selection_toolbar_force_with_manager
    simp [h]
  · intro h
    unfold show_selection_toolbar_force_with_manager
    simp [h, clear_deadline_noop st h]

/-- C7 witness: with a saved deadline 99 and an interfering write of deadline
7 during the show, the final state keeps 7 and the saved deadline is not
restored. -/
theorem force_show_spec_witness :
    (⟨none, none, true, some 99, []⟩ :
        ToolbarState).temporary_disabled_until = some 99 ∧
    show_selection_toolbar_force_with_manager ⟨[], 1, 0, 0⟩ "ab" ⟨100, 200⟩
        (some (some 7)) ⟨none, none, true, some 99, []⟩ =
      ((show_toolbar_internal ⟨[], 1, 0, 0⟩ "ab" ⟨100, 200⟩
          ⟨none, none, true, none, []⟩).1,
        { (show_toolbar_internal ⟨[], 1, 0, 0⟩ "ab" ⟨100, 200⟩
            ⟨none, none, true, none, []⟩).2 with
            temporary_disabled_until := some 7 }) := by
  exact ⟨rfl, (force_show_spec ⟨[], 1, 0, 0⟩ "ab" ⟨100, 200⟩
    ⟨none, none, true, some 99, []⟩ 99 7).2.2.1 rfl⟩

/-- C8: the toolbar position is the cursor position minus half the scaled
toolbar width horizontally, and minus the scaled toolbar height and vertical
offset vertically, each coordinate clamped independently to at least 0; every
shown outcome of the show path carries exactly this position rounded to
integer pixels; at (100, 200) with scale factor 1 the result is (60, 155). -/
theorem compute_toolbar_position_spec :
    (∀ x y s : ℚ,
        compute_toolbar_position { x := x, y := y } s =
          (max 0 (x - TOOLBAR_WIDTH * s / 2),
           max 0 (y - TOOLBAR_HEIGHT * s - TOOLBAR_VERTICAL_OFFSET * s))) ∧
    (∀ (env : ShowEnv) (text : String) (pos : CursorPosition)
        (st : ToolbarState) (p : ℤ × ℤ) (t : String),
        (show_toolbar_internal env text pos st).1 = ShowOutcome.shown p t →
          p = (round (compute_toolbar_position pos env.scale_factor).1,
               round (compute_toolbar_position pos env.scale_factor).2)) ∧
    compute_toolbar_position { x := 100, y := 200 } 1 = (60, 155) := by
  refine ⟨?_, ?_, ?_⟩
  · intro x y s
    have hmax : ∀ a : ℚ, (if a < 0 then (0 : ℚ) else a) = max 0 a := by
      intro a
      rcases lt_or_le a 0 with h | h
      · rw [if_pos h, max_eq_left h.le]
      · rw [if_neg (not_lt.mpr h), max_eq_right h]
    unfold compute_toolbar_position
    simp only
    rw [hmax, hmax]
  · intro env text pos st p t h
    unfold show_toolbar_internal at h
    split at h <;> simp_all <;> split at h <;> simp_all <;> split at h <;>
      simp_all <;> split at h <;> simp_all <;> split at h <;> simp_all
  · unfold compute_toolbar_position
    simp [TOOLBAR_WIDTH, TOOLBAR_HEIGHT, TOOLBAR_VERTICAL_OFFSET]
    norm_num

/-- C8 witness: a concrete shown outcome at cursor (100, 200) with scale
factor 1 carries exactly the clamped, rounded position (60, 155). -/
theorem compute_toolbar_position_spec_witness :
    (show_toolbar_internal ⟨[], 1, 0, 0⟩ "ab" ⟨100, 200⟩
        ToolbarState.default).1 = ShowOutcome.shown (60, 155) "ab" ∧
    ((60 : ℤ), (155 : ℤ)) =
      (round (compute_toolbar_position ⟨100, 200⟩ (1 : ℚ)).1,
       round (compute_toolbar_position ⟨100, 200⟩ (1 : ℚ)).2) := by
  have h : (show_toolbar_internal ⟨[], 1, 0, 0⟩ "ab" ⟨100, 200⟩
      ToolbarState.default).1 = ShowOutcome.shown (60, 155) "ab" := by
    simp [show_toolbar_internal, ToolbarState.default,
      ToolbarState.is_temporarily_disabled, compute_toolbar_position,
      TOOLBAR_WIDTH, TOOLBAR_HEIGHT, TOOLBAR_VERTICAL_OFFSET]
    norm_num
    decide
  exact ⟨h, compute_toolbar_position_spec.2.1 ⟨[], 1, 0, 0⟩ "ab" ⟨100, 200⟩
    ToolbarState.default (60, 155) "ab" h⟩

/-- C3: with the feature enabled and a temporary-disable deadline in the
future, the hotkey trigger path still shows the toolbar, using the validated
trimmed clipboard text when the provider chain returns nothing, and the
deadline survives, while the automatic show path returns suppressed for the
same state. -/
theorem hotkey_bypasses_temporary_disable
    (env : HotkeyEnv) (state : ToolbarState) (d : Nat) (ctext : String)
    (cx cy : ℚ)
    (henabled : state.enabled = true)
    (hdeadline : state.temporary_disabled_until = some d)
    (hfuture : env.sys_now < d)
    (hprov : env.provider_text = none)
    (hclip : env.clipboard = some ctext)
    (hct : strTrim ctext = ctext)
    (hvalid : MIN_TEXT_LENGTH ≤ nonWhitespaceCount ctext)
    (hfail : env.capture_failed = false)
    (hcursor : env.cursor = Except.ok (cx, cy))
    (hshownat : state.last_shown_at = none)
    (hids : env.active_identifiers = []) :
    (trigger_toolbar_from_hotkey env state).1 =
      HotkeyOutcome.forced (ShowOutcome.shown
        (round (compute_toolbar_position { x := cx, y := cy }
            env.scale_factor).1,
         round (compute_toolbar_position { x := cx, y := cy }
            env.scale_factor).2) ctext) ∧
    (trigger_toolbar_from_hotkey env state).2.temporary_disabled_until =
      some d ∧
    (∀ (t : String) (pos : CursorPosition),
        strIsEmpty (strTrim t) = false →
        (show_toolbar_internal
            ⟨env.active_identifiers, env.scale_factor, env.sys_now,
              env.inst_now⟩ t pos state).1 =
          ShowOutcome.suppressedTemporarilyDisabled) := by
  have hempty : strIsEmpty ctext = false :=
    strIsEmpty_eq_false_of_count ctext hvalid
  have htd : state.is_temporarily_disabled env.sys_now = (true, state) := by
    unfold ToolbarState.is_temporarily_disabled
    rw [hdeadline]
    simp [Nat.not_le.mpr hfuture]
  have hcap : capture_text_for_hotkey env.provider_text env.clipboard =
      some ctext := by
    rw [hprov, hclip]
    unfold capture_text_for_hotkey read_clipboard_text
    simp [hct, hempty, Nat.not_lt.mpr hvalid]
  have hshow : show_toolbar_internal
      ⟨env.active_identifiers, env.scale_factor, env.sys_now, env.inst_now⟩
      ctext { x := cx, y := cy }
      { state with temporary_disabled_until := none } =
      (ShowOutcome.shown
        (round (compute_toolbar_position { x := cx, y := cy }
            env.scale_factor).1,
         round (compute_toolbar_position { x := cx, y := cy }
            env.scale_factor).2) ctext,
       { state with
          temporary_disabled_until := none
          last_shown_at := some env.inst_now
          last_text := some ctext }) := by
    unfold show_toolbar_internal ToolbarState.is_temporarily_disabled
    simp [hct, hempty, henabled, hids, hshownat]
  have hforce : show_selection_toolbar_force_with_manager
      ⟨env.active_identifiers, env.scale_factor, env.sys_now, env.inst_now⟩
      ctext { x := cx, y := cy } none state =
      (ShowOutcome.shown
        (round (compute_toolbar_position { x := cx, y := cy }
            env.scale_factor).1,
         round (compute_toolbar_position { x := cx, y := cy }
            env.scale_factor).2) ctext,
       { state with
          temporary_disabled_until := some d
          last_shown_at := some env.inst_now
          last_text := some ctext }) := by
    unfold show_selection_toolbar_force_with_manager
    simp [hdeadline, hshow]
  have htrig : trigger_toolbar_from_hotkey env state =
      (HotkeyOutcome.forced (ShowOutcome.shown
        (round (compute_toolbar_position { x := cx, y := cy }
            env.scale_factor).1,
         round (compute_toolbar_position { x := cx, y := cy }
            env.scale_factor).2) ctext),
       { state with
          temporary_disabled_until := some d
          last_shown_at := some env.inst_now
          last_text := some ctext }) := by
    unfold trigger_toolbar_from_hotkey
    simp [henabled, htd, hfail, hcap, hcursor, hforce]
  refine ⟨by rw [htrig], by rw [htrig], ?_⟩
  intro t pos ht
  unfold show_toolbar_internal
  simp [ht, henabled, htd]

/-- C3 witness: concrete hotkey trigger with deadline 1000 in the future, no
provider text and clipboard text "hello": the toolbar is force shown at the
computed position. -/
theorem hotkey_bypasses_temporary_disable_witness :
    (⟨none, none, true, some 1000, []⟩ : ToolbarState).enabled = true ∧
    (trigger_toolbar_from_hotkey
        ⟨[], none, some "hello", Except.ok (100, 200), 1, 0, 0, false⟩
        ⟨none, none, true, some 1000, []⟩).1 =
      HotkeyOutcome.forced (ShowOutcome.shown
        (round (compute_toolbar_position { x := 100, y := 200 } (1 : ℚ)).1,
         round (compute_toolbar_position { x := 100, y := 200 } (1 : ℚ)).2)
        "hello") := by
  exact ⟨rfl, (hotkey_bypasses_temporary_disable
    ⟨[], none, some "hello", Except.ok (100, 200), 1, 0, 0, false⟩
    ⟨none, none, true, some 1000, []⟩ 1000 "hello" 100 200 rfl rfl
    (by decide) rfl rfl (by decide) (by decide) rfl rfl rfl rfl).1⟩

end AiAsk
